import Mathlib

/-!
Verification of the telemetry processing and alerting engine of the
IoT-Warriors dashboard (`src/Website/script.js`), as a shallow embedding
in Lean 4.

Modelling conventions:
* JavaScript numbers are IEEE doubles.  The telemetry engine applies only
  ordering, comparison against integer thresholds and subtraction to
  readings, timestamps and clock instants, so any ordered-ring embedding is
  faithful on these operations; we embed them as `ℤ`, which the
  whole-number readings and epoch-millisecond instants that the engine
  actually receives inhabit exactly.  The color mapper divides, so its
  value domain is embedded as `ℚ`.
* A reading field of a fetched payload may be non-numeric in JavaScript;
  we model a reading as `Option ℤ`, where `none` stands for any
  non-numeric value (a value whose numeric comparisons behave like `NaN`:
  every `<`/`>` comparison is `false`, and arithmetic on it yields `NaN`
  again).
* DOM rendering, geocoding, the map and the chart library are external
  collaborators: only the data handed to them is modelled.  The status
  panel's text content is modelled by the inductive types `Status` and
  `Suggestion`, one constructor per branch of `updateStatusPanel`, with the
  numeric trend delta carried as payload (the code interpolates it into the
  suggestion string).
* The `latitude`/`longitude`/`locationName` fields of a formatted sample
  are produced by string splitting and an external geocoder; no claim
  mentions them, so they are omitted from the embedded `Sample`.
-/

/-- A JavaScript reading value: `some q` is the number `q`; `none` is any
non-numeric value (its comparisons behave like `NaN`). -/
abbrev JVal := Option ℤ

/-- JavaScript `>` against a numeric constant: `v > t`.  A non-numeric
reading compares like `NaN`, so the comparison is `false`. -/
def jsGt (v : JVal) (t : ℤ) : Bool :=
  match v with
  | some q => decide (t < q)
  | none => false

/-- JavaScript subtraction of two readings; any non-numeric operand gives
`NaN` (modelled `none`). -/
def jsSub (a b : JVal) : JVal :=
  match a, b with
  | some x, some y => some (x - y)
  | _, _ => none

/-- The formatted sample built in `fetchData` (script.js line 40):
readings are copied verbatim from the fetched payload (no numeric
validation), together with the payload's timestamp. -/
structure Sample where
  temperature : JVal
  humidity : JVal
  carbon : JVal
  timestamp : ℤ
deriving DecidableEq

/-- A fetched raw payload (`liveData`): the `location` field may be absent
(`none`) and the readings may be non-numeric. -/
structure Payload where
  location : Option String
  temperature : JVal
  humidity : JVal
  carbon : JVal
  timestamp : ℤ
deriving DecidableEq

/-- JavaScript truthiness of `liveData.location`: absent (`undefined`/
`null`) and the empty string are falsy. -/
def jsTruthy : Option String → Bool
  | none => false
  | some s => !(s == "")

/-- `formattedData` construction in `fetchData` (script.js lines 40-44):
the readings and timestamp are copied as-is. -/
def formatSample (p : Payload) : Sample :=
  { temperature := p.temperature, humidity := p.humidity,
    carbon := p.carbon, timestamp := p.timestamp }

/-- Threshold set (script.js line 220): `{ temp: 45, co2: 500, humidity: 80 }`. -/
structure Thresholds where
  temp : ℤ
  co2 : ℤ
  humidity : ℤ

def THRESHOLDS : Thresholds := { temp := 45, co2 := 500, humidity := 80 }

/-- The status level shown by `updateStatusPanel`, one constructor per
branch (script.js lines 67-85). -/
inductive Status where
  | highCO2
  | highTemperature
  | elevatedHumidity
  | normal
deriving DecidableEq

/-- The suggestion text shown by `updateStatusPanel`, one constructor per
branch; `trendUp` carries the numeric delta interpolated into the string
(script.js lines 71-98). -/
inductive Suggestion where
  | ventilation
  | fireHazard
  | mold
  | trendUp (delta : ℤ)
  | trendDown
  | stable
deriving DecidableEq

/-- `updateStatusPanel` (script.js lines 61-101): classifies `data` with
first-match priority CO₂ > temperature > humidity, and in the Normal branch
computes the carbon trend against `historicalData[0]` when
`historicalData.length > 5`.  A `NaN` trend fails both comparisons and
falls through to the stable suggestion, exactly as in JavaScript. -/
def updateStatusPanel (data : Sample) (historicalData : List Sample) :
    Status × Suggestion :=
  if jsGt data.carbon THRESHOLDS.co2 then
    (Status.highCO2, Suggestion.ventilation)
  else if jsGt data.temperature THRESHOLDS.temp then
    (Status.highTemperature, Suggestion.fireHazard)
  else if jsGt data.humidity THRESHOLDS.humidity then
    (Status.elevatedHumidity, Suggestion.mold)
  else
    (Status.normal,
      if historicalData.length > 5 then
        match historicalData with
        | [] => Suggestion.stable
        | old :: _ =>
          match jsSub data.carbon old.carbon with
          | some trend =>
            if trend > 50 then Suggestion.trendUp trend
            else if trend < -50 then Suggestion.trendDown
            else Suggestion.stable
          | none => Suggestion.stable
      else Suggestion.stable)

/-! ### Alert engine (script.js lines 220-222) -/

/-- The three alert metrics of `checkThresholds` / `lastAlertTimes`. -/
inductive Metric where
  | temp
  | co2
  | humidity
deriving DecidableEq

/-- The global `lastAlertTimes = { temp: 0, co2: 0, humidity: 0 }` object
(script.js line 220). -/
structure LastAlertTimes where
  temp : ℤ
  co2 : ℤ
  humidity : ℤ
deriving DecidableEq

/-- `ALERT_COOLDOWN = 300000` (script.js line 220). -/
def ALERT_COOLDOWN : ℤ := 300000

/-- Severity passed to `sendAlert` (`'error'` / `'warning'`). -/
inductive Severity where
  | error
  | warning
deriving DecidableEq

/-- One entry of `activeAlerts` pushed by `sendAlert` via `unshift`:
metric, raw value, severity, and the firing instant (the code stores a
locale-formatted string of the current time; the location string is
supplied by the DOM and is not part of the engine state). -/
structure AlertRecord where
  metric : Metric
  value : JVal
  severity : Severity
  firedAt : ℤ
deriving DecidableEq

/-- The mutable globals of the engine: `historicalData`, `lastAlertTimes`,
`activeAlerts`, `unreadAlertCount` (script.js lines 4, 7, 8, 220). -/
structure DashState where
  historicalData : List Sample
  lastAlertTimes : LastAlertTimes
  activeAlerts : List AlertRecord
  unreadAlertCount : ℕ
deriving DecidableEq

/-- The initial state at page load: empty history, zeroed cooldown times,
empty alert log, zero unread count. -/
def initDash : DashState :=
  { historicalData := [],
    lastAlertTimes := { temp := 0, co2 := 0, humidity := 0 },
    activeAlerts := [],
    unreadAlertCount := 0 }

/-- `sendAlert(metric, value, type)` (script.js line 222): `unshift`s one
record onto `activeAlerts` and increments `unreadAlertCount` (toast and
simulated SMS/email are external sinks). -/
def sendAlert (m : Metric) (v : JVal) (sev : Severity) (now : ℤ)
    (st : DashState) : DashState :=
  { st with
    activeAlerts :=
      { metric := m, value := v, severity := sev, firedAt := now } ::
        st.activeAlerts,
    unreadAlertCount := st.unreadAlertCount + 1 }

/-- Reads the `lastAlertTimes` entry of a metric. -/
def LastAlertTimes.get (t : LastAlertTimes) : Metric → ℤ
  | Metric.temp => t.temp
  | Metric.co2 => t.co2
  | Metric.humidity => t.humidity

/-- The first `if` of `checkThresholds`: the temperature check. -/
def tempCheck (now : ℤ) (data : Sample) (st : DashState) :
    DashState × List (ℤ × Metric) :=
  if jsGt data.temperature THRESHOLDS.temp &&
      decide (now - st.lastAlertTimes.temp > ALERT_COOLDOWN) then
    ({ sendAlert Metric.temp data.temperature Severity.error now st with
        lastAlertTimes := { st.lastAlertTimes with temp := now } },
      [(now, Metric.temp)])
  else (st, [])

/-- The second `if` of `checkThresholds`: the CO₂ check. -/
def co2Check (now : ℤ) (data : Sample) (st : DashState) :
    DashState × List (ℤ × Metric) :=
  if jsGt data.carbon THRESHOLDS.co2 &&
      decide (now - st.lastAlertTimes.co2 > ALERT_COOLDOWN) then
    ({ sendAlert Metric.co2 data.carbon Severity.error now st with
        lastAlertTimes := { st.lastAlertTimes with co2 := now } },
      [(now, Metric.co2)])
  else (st, [])

/-- The third `if` of `checkThresholds`: the humidity check. -/
def humidityCheck (now : ℤ) (data : Sample) (st : DashState) :
    DashState × List (ℤ × Metric) :=
  if jsGt data.humidity THRESHOLDS.humidity &&
      decide (now - st.lastAlertTimes.humidity > ALERT_COOLDOWN) then
    ({ sendAlert Metric.humidity data.humidity Severity.warning now st with
        lastAlertTimes := { st.lastAlertTimes with humidity := now } },
      [(now, Metric.humidity)])
  else (st, [])

/-- `checkThresholds(data)` (script.js line 221): the three checks run
sequentially on the shared state; the fired events of the call are
collected in evaluation order. -/
def checkThresholds (now : ℤ) (data : Sample) (st : DashState) :
    DashState × List (ℤ × Metric) :=
  let r1 := tempCheck now data st
  let r2 := co2Check now data r1.1
  let r3 := humidityCheck now data r2.1
  (r3.1, r1.2 ++ r2.2 ++ r3.2)

/-! ### History buffer and ingestion step (script.js lines 31-58) -/

/-- The buffer update of `fetchData` (script.js lines 49-52):
`historicalData.push(formattedData)` followed by one `shift()` when the
length exceeds 20. -/
def pushHist (l : List Sample) (s : Sample) : List Sample :=
  let pushed := l ++ [s]
  if pushed.length > 20 then pushed.tail else pushed

/-- What one accepted ingestion cycle publishes: the classification
computed by `updateStatusPanel` and the alert events fired by
`checkThresholds`. -/
structure CycleOut where
  status : Status
  suggestion : Suggestion
  fires : List (ℤ × Metric)
deriving DecidableEq

/-- One tick of `fetchData` after a successful fetch (script.js lines
35-56): if `liveData && liveData.location` is falsy the cycle ends with no
state change and no output; otherwise the formatted sample is classified
(`updateDashboard` → `updateStatusPanel`) and evaluated for alerts
(`checkThresholds`) against the state *before* the sample is pushed, and
only then appended to `historicalData` with FIFO eviction.  There is no
timestamp or numeric validation of any kind. -/
def fetchData (now : ℤ) (liveData : Option Payload) (st : DashState) :
    DashState × Option CycleOut :=
  match liveData with
  | none => (st, none)
  | some p =>
    if jsTruthy p.location then
      let data := formatSample p
      let cls := updateStatusPanel data st.historicalData
      let r := checkThresholds now data st
      ({ r.1 with historicalData := pushHist r.1.historicalData data },
        some { status := cls.1, suggestion := cls.2, fires := r.2 })
    else (st, none)

/-! ### Color helpers (script.js lines 233-255) -/

/-- An RGB color as produced by `interpolateColor`'s channel arithmetic
(the code then prints each channel as two hex digits; a channel outside
`[0, 255]` yields a malformed color string). -/
structure RGB where
  r : ℤ
  g : ℤ
  b : ℤ
deriving DecidableEq

/-- JavaScript `Math.round`: half-up rounding towards `+∞`. -/
def jsRound (x : ℚ) : ℤ := ⌊x + 1 / 2⌋

/-- `interpolateColor(color1, color2, factor)` (script.js lines 233-244):
per-channel `Math.round(c1 + factor * (c2 - c1))`, with NO clamping of
`factor`. -/
def interpolateColor (c1 c2 : RGB) (factor : ℚ) : RGB :=
  { r := jsRound ((c1.r : ℚ) + factor * ((c2.r : ℚ) - (c1.r : ℚ))),
    g := jsRound ((c1.g : ℚ) + factor * ((c2.g : ℚ) - (c1.g : ℚ))),
    b := jsRound ((c1.b : ℚ) + factor * ((c2.b : ℚ) - (c1.b : ℚ))) }

/-- `"#3b82f6"` -/
def tcBlue : RGB := { r := 59, g := 130, b := 246 }
/-- `"#22c55e"` -/
def tcGreen : RGB := { r := 34, g := 197, b := 94 }
/-- `"#eab308"` -/
def tcYellow : RGB := { r := 234, g := 179, b := 8 }
/-- `"#f87171"` -/
def tcLightRed : RGB := { r := 248, g := 113, b := 113 }
/-- `"#ef4444"` -/
def tcMidRed : RGB := { r := 239, g := 68, b := 68 }
/-- `"#b91c1c"` -/
def tcDarkRed : RGB := { r := 185, g := 28, b := 28 }

/-- `getTemperatureColor(value)` (script.js lines 246-255). -/
def getTemperatureColor (value : ℚ) : RGB :=
  if value ≤ 25 then interpolateColor tcBlue tcGreen (value / 25)
  else if value ≤ 40 then interpolateColor tcGreen tcYellow ((value - 25) / 15)
  else if value ≤ 50 then interpolateColor tcYellow tcLightRed ((value - 40) / 10)
  else if value ≤ 70 then interpolateColor tcLightRed tcMidRed ((value - 50) / 20)
  else interpolateColor tcMidRed tcDarkRed ((value - 70) / 30)

/-! ### Analytics chart windowing (script.js lines 322-335) -/

/-- The `chart-time-filter` selector value: `'24h'`, `'7d'`, or anything
else (no filtering). -/
inductive TimeFilter where
  | all
  | h24
  | d7
deriving DecidableEq

/-- The `chart-data-filter` selector value: which sample field to plot. -/
inductive DataKey where
  | temperature
  | humidity
  | carbon
deriving DecidableEq

/-- `d[selectedDataKey]`. -/
def dataKeyVal (d : Sample) : DataKey → JVal
  | DataKey.temperature => d.temperature
  | DataKey.humidity => d.humidity
  | DataKey.carbon => d.carbon

/-- The `filteredData` computation of `renderAnalyticsChart` (script.js
lines 327-329): for `'24h'` keep samples with
`new Date(d.timestamp) > now - 24*60*60*1000`, for `'7d'` the same with
seven days; otherwise the whole buffer.  The comparison is strict and has
no upper bound. -/
def analyticsFilteredData (now : ℤ) (timeFilter : TimeFilter)
    (historicalData : List Sample) : List Sample :=
  match timeFilter with
  | TimeFilter.all => historicalData
  | TimeFilter.h24 =>
    historicalData.filter (fun d => decide (now - 24 * 60 * 60 * 1000 < d.timestamp))
  | TimeFilter.d7 =>
    historicalData.filter (fun d => decide (now - 7 * 24 * 60 * 60 * 1000 < d.timestamp))

/-- The series handed to the chart (script.js lines 334-335): `labels`
zipped with `dataPoints`, i.e. `(timestamp, value)` pairs of the filtered
buffer in buffer order. -/
def renderAnalyticsSeries (now : ℤ) (timeFilter : TimeFilter)
    (key : DataKey) (historicalData : List Sample) : List (ℤ × JVal) :=
  (analyticsFilteredData now timeFilter historicalData).map
    (fun d => (d.timestamp, dataKeyVal d key))

/-! ### Repeated alert evaluation (for the cooldown analysis) -/

/-- `checkThresholds` run over a whole sequence of `(Date.now(), sample)`
ticks, collecting every fired event in order. -/
def runChecks (st : DashState) : List (ℤ × Sample) → DashState × List (ℤ × Metric)
  | [] => (st, [])
  | (now, s) :: ts =>
    let r := checkThresholds now s st
    let rest := runChecks r.1 ts
    (rest.1, r.2 ++ rest.2)

/-- The firing times of one metric among a list of fired events. -/
def fireTimesFor (m : Metric) (evs : List (ℤ × Metric)) : List ℤ :=
  (evs.filter (fun e => e.2 = m)).map (fun e => e.1)

/-- Whether a sample breaches the threshold of a metric. -/
def breachOf (m : Metric) (s : Sample) : Bool :=
  match m with
  | Metric.temp => jsGt s.temperature THRESHOLDS.temp
  | Metric.co2 => jsGt s.carbon THRESHOLDS.co2
  | Metric.humidity => jsGt s.humidity THRESHOLDS.humidity

/-- The single-metric core of one `checkThresholds` evaluation: given the
metric's `lastAlertTimes` entry, the clock and whether the sample breaches,
return the updated entry and whether an alert fired. -/
def alertStep (last now : ℤ) (breach : Bool) : ℤ × Bool :=
  if breach && decide (now - last > ALERT_COOLDOWN) then (now, true)
  else (last, false)

/-- The firing times of a single metric across a tick sequence, driven by
`alertStep`. -/
def alertRun (last : ℤ) : List (ℤ × Bool) → List ℤ
  | [] => []
  | (now, b) :: ts =>
    let r := alertStep last now b
    (if r.2 then [now] else []) ++ alertRun r.1 ts

/-- Fire exactly at the first tick strictly beyond each
`ALERT_COOLDOWN`-long window measured from the previous firing time (the
once-per-window firing pattern the spec describes for a sustained
breach). -/
def greedyFires (last : ℤ) : List ℤ → List ℤ
  | [] => []
  | now :: ts =>
    if now - last > ALERT_COOLDOWN then now :: greedyFires now ts
    else greedyFires last ts

/-! ### User-interface events acting on the alert log (script.js lines 226-228) -/

/-- The events that touch the engine state: an ingestion tick, a click on
the alert bell (opens the modal, zeroes the unread count, leaves the log
alone), and a click on "clear all" (empties the log and zeroes the
count). -/
inductive UiEvent where
  | tick (now : ℤ) (liveData : Option Payload)
  | bellClick
  | clearClick
deriving DecidableEq

/-- One event applied to the engine state (`fetchData`, the
`alertBellBtn` handler at script.js line 226, the `clearAllAlertsBtn`
handler at line 228). -/
def applyEvent (st : DashState) : UiEvent → DashState
  | UiEvent.tick now liveData => (fetchData now liveData st).1
  | UiEvent.bellClick => { st with unreadAlertCount := 0 }
  | UiEvent.clearClick => { st with activeAlerts := [], unreadAlertCount := 0 }

/-- The engine state reached from page load by a sequence of events. -/
def runEvents (evs : List UiEvent) : DashState :=
  evs.foldl applyEvent initDash

/-! ### Spec-side definitions (for refinement comparisons) -/

/-- Modelled from the spec: first-match-wins over an ordered list of
`(condition, status)` rules, defaulting to the last status. -/
def firstMatch : List (Bool × Status) → Status → Status
  | [], dflt => dflt
  | (c, s) :: rest, dflt => if c then s else firstMatch rest dflt

/-- Modelled from the spec's words for the Status Classifier: the priority
rule list "CO2 > Threshold.co2 → High-CO2; else temperature >
Threshold.temp → High-Temperature; else humidity > Threshold.humidity →
Elevated-Humidity; else Normal". -/
def specClassify (data : Sample) : Status :=
  firstMatch
    [(jsGt data.carbon THRESHOLDS.co2, Status.highCO2),
     (jsGt data.temperature THRESHOLDS.temp, Status.highTemperature),
     (jsGt data.humidity THRESHOLDS.humidity, Status.elevatedHumidity)]
    Status.normal

/-- The time range of a chart filter, in milliseconds (`none` for the
unfiltered selector value). -/
def rangeMs : TimeFilter → Option ℤ
  | TimeFilter.all => none
  | TimeFilter.h24 => some (24 * 60 * 60 * 1000)
  | TimeFilter.d7 => some (7 * 24 * 60 * 60 * 1000)

/-- Modelled from the claim's words for the Analytics Windower: keep
exactly the buffered samples whose timestamp lies within the closed
interval `[now − range, now]`, in buffer order, projected to
`(timestamp, value)` pairs. -/
def windowSpecClaim (now : ℤ) (timeFilter : TimeFilter) (key : DataKey)
    (historicalData : List Sample) : List (ℤ × JVal) :=
  let kept : List Sample :=
    match rangeMs timeFilter with
    | none => historicalData
    | some range =>
      historicalData.filter
        (fun d => decide (now - range ≤ d.timestamp ∧ d.timestamp ≤ now))
  kept.map (fun d => (d.timestamp, dataKeyVal d key))

/-- The amended windower contract: keep exactly the buffered samples whose
timestamp is strictly later than `now − range` (no upper bound), in buffer
order, projected to `(timestamp, value)` pairs. -/
def windowSpecAmended (now : ℤ) (timeFilter : TimeFilter) (key : DataKey)
    (historicalData : List Sample) : List (ℤ × JVal) :=
  let kept : List Sample :=
    match rangeMs timeFilter with
    | none => historicalData
    | some range =>
      historicalData.filter (fun d => decide (now - range < d.timestamp))
  kept.map (fun d => (d.timestamp, dataKeyVal d key))

/-- `fetchData` run over a sequence of `(Date.now(), payload)` ticks from
a starting state, collecting each cycle's published output in order. -/
def runFetch (st : DashState) : List (ℤ × Option Payload) → DashState × List (Option CycleOut)
  | [] => (st, [])
  | (now, p) :: ts =>
    let r := fetchData now p st
    let rest := runFetch r.1 ts
    (rest.1, r.2 :: rest.2)

/-! ### Helper lemmas -/

/-- `checkThresholds` never touches the history buffer. -/
theorem tempCheck_historicalData (now : ℤ) (d : Sample) (st : DashState) :
    ((tempCheck now d st).1).historicalData = st.historicalData := by
  unfold tempCheck sendAlert
  split_ifs <;> rfl

/-- `co2Check` never touches the history buffer. -/
theorem co2Check_historicalData (now : ℤ) (d : Sample) (st : DashState) :
    ((co2Check now d st).1).historicalData = st.historicalData := by
  unfold co2Check sendAlert
  split_ifs <;> rfl

/-- `humidityCheck` never touches the history buffer. -/
theorem humidityCheck_historicalData (now : ℤ) (d : Sample) (st : DashState) :
    ((humidityCheck now d st).1).historicalData = st.historicalData := by
  unfold humidityCheck sendAlert
  split_ifs <;> rfl

/-- `checkThresholds` never touches the history buffer. -/
theorem checkThresholds_historicalData (now : ℤ) (d : Sample) (st : DashState) :
    ((checkThresholds now d st).1).historicalData = st.historicalData := by
  unfold checkThresholds
  rw [humidityCheck_historicalData, co2Check_historicalData,
    tempCheck_historicalData]

/-- The buffer update of one step, as a drop of the extended arrival list. -/
theorem pushHist_drop (xs : List Sample) (x : Sample) :
    pushHist (xs.drop (xs.length - 20)) x =
      (xs ++ [x]).drop ((xs ++ [x]).length - 20) := by
  unfold pushHist
  by_cases h : xs.length < 20
  · have h0 : xs.length - 20 = 0 := by omega
    have h1 : (xs ++ [x]).length - 20 = 0 := by
      simp only [List.length_append, List.length_singleton]; omega
    simp only [h0, h1, List.drop_zero]
    rw [if_neg]
    simp only [List.length_append, List.length_singleton]
    omega
  · have hlen : (xs.drop (xs.length - 20)).length = 20 := by
      simp only [List.length_drop]; omega
    have hd : xs.length - 20 ≤ xs.length := by omega
    rw [if_pos]
    · have e1 : (xs ++ [x]).length - 20 = (xs.length - 20) + 1 := by
        simp only [List.length_append, List.length_singleton]; omega
      rw [e1, ← List.drop_drop, List.drop_append_of_le_length hd,
        ← List.drop_one]
    · simp only [List.length_append, hlen, List.length_singleton]
      omega

/-- The buffer after any arrival sequence is the last-20 suffix of that
sequence. -/
theorem foldl_pushHist (samples : List Sample) :
    samples.foldl pushHist [] = samples.drop (samples.length - 20) := by
  induction samples using List.reverseRecOn with
  | nil => rfl
  | append_singleton xs x ih =>
    rw [List.foldl_append, List.foldl_cons, List.foldl_nil, ih, pushHist_drop]

/-- `fetchData` updates the buffer exactly by `pushHist` on an accepted
payload. -/
theorem fetchData_historicalData (now : ℤ) (p : Payload) (st : DashState)
    (hloc : jsTruthy p.location = true) :
    (fetchData now (some p) st).1.historicalData =
      pushHist st.historicalData (formatSample p) := by
  simp only [fetchData, hloc, if_true]
  rw [checkThresholds_historicalData]

/-! ### C3 -/

/-- C3: after ingesting any sequence of N valid samples in order, the
history buffer holds exactly the last min(N, 20) samples in arrival order
(equivalently, the length-(N−20) drop of the arrival list), its length is
min(N, 20), it never exceeds 20 at any intermediate point, and one
accepted `fetchData` cycle updates the buffer exactly by this
push-and-evict step. -/
theorem C3_buffer_bound :
    (∀ samples : List Sample,
        samples.foldl pushHist [] = samples.drop (samples.length - 20) ∧
        (samples.foldl pushHist []).length = min samples.length 20 ∧
        ∀ n, ((samples.take n).foldl pushHist []).length ≤ 20) ∧
    (∀ (now : ℤ) (p : Payload) (st : DashState),
        jsTruthy p.location = true →
        (fetchData now (some p) st).1.historicalData =
          pushHist st.historicalData (formatSample p)) := by
  have len : ∀ samples : List Sample,
      (samples.foldl pushHist []).length = min samples.length 20 := by
    intro samples
    rw [foldl_pushHist, List.length_drop]
    omega
  refine ⟨fun samples => ⟨foldl_pushHist samples, len samples, fun n => ?_⟩,
    fun now p st hloc => fetchData_historicalData now p st hloc⟩
  rw [len (samples.take n)]
  omega

/-- Witness for C3 at a concrete accepted cycle. -/
theorem C3_buffer_bound_witness :
    jsTruthy (Payload.location
      { location := some "10,76", temperature := some 25, humidity := some 50,
        carbon := some 300, timestamp := 1 }) = true ∧
    (fetchData 0 (some
      { location := some "10,76", temperature := some 25, humidity := some 50,
        carbon := some 300, timestamp := 1 }) initDash).1.historicalData =
      pushHist initDash.historicalData (formatSample
        { location := some "10,76", temperature := some 25, humidity := some 50,
          carbon := some 300, timestamp := 1 }) :=
  ⟨by decide, C3_buffer_bound.2 0
    { location := some "10,76", temperature := some 25, humidity := some 50,
      carbon := some 300, timestamp := 1 } initDash (by decide)⟩

/-! ### C4 -/

/-- C4: status classification is first-match-wins in the priority order
CO₂ > 500, then temperature > 45, then humidity > 80, else Normal (stated
as agreement with the spec's priority-rule-list classifier for every
sample and every history); in particular a sample with carbon 600 and
temperature 50 classifies as High-CO₂. -/
theorem C4_classifier_priority :
    (∀ (d : Sample) (h : List Sample),
        (updateStatusPanel d h).1 = specClassify d) ∧
    (updateStatusPanel
      { temperature := some 50, humidity := some 10, carbon := some 600,
        timestamp := 0 } []).1 = Status.highCO2 := by
  constructor
  · intro d h
    unfold updateStatusPanel specClassify
    split_ifs <;> simp_all [firstMatch]
  · decide

/-! ### C1 -/

/-- C1 as stated fails on the code: with one buffered sample of timestamp
1000, a fetched payload carrying the same timestamp 1000 changes the
buffer (its length grows to 2) and the cycle still produces a
classification output, so ingestion does not reject equal-or-older
timestamps. -/
theorem C1_counterexample :
    (fetchData 0 (some
        { location := some "10,76", temperature := some 25, humidity := some 50,
          carbon := some 300, timestamp := 1000 })
      { historicalData :=
          [{ temperature := some 25, humidity := some 50, carbon := some 300,
             timestamp := 1000 }],
        lastAlertTimes := { temp := 0, co2 := 0, humidity := 0 },
        activeAlerts := [], unreadAlertCount := 0 }).1.historicalData ≠
      [{ temperature := some 25, humidity := some 50, carbon := some 300,
         timestamp := 1000 }] ∧
    (fetchData 0 (some
        { location := some "10,76", temperature := some 25, humidity := some 50,
          carbon := some 300, timestamp := 1000 })
      { historicalData :=
          [{ temperature := some 25, humidity := some 50, carbon := some 300,
             timestamp := 1000 }],
        lastAlertTimes := { temp := 0, co2 := 0, humidity := 0 },
        activeAlerts := [], unreadAlertCount := 0 }).2.isSome = true := by
  constructor
  · decide
  · decide

/-- C1 (amended): ingestion performs no staleness check.  A payload with a
truthy location whose timestamp is less than or equal to that of a sample
already in the buffer is still processed like any other: the sample is
appended to the buffer (with FIFO eviction), and classification and alert
evaluation run for that cycle. -/
theorem C1_no_staleness_check (now : ℤ) (p : Payload) (st : DashState)
    (s : Sample) (hloc : jsTruthy p.location = true)
    (hmem : s ∈ st.historicalData) (hstale : p.timestamp ≤ s.timestamp) :
    (fetchData now (some p) st).1.historicalData =
      pushHist st.historicalData (formatSample p) ∧
    (fetchData now (some p) st).2.isSome = true := by
  refine ⟨fetchData_historicalData now p st hloc, ?_⟩
  simp [fetchData, hloc]

/-- Witness for C1 (amended): a stale payload (timestamp 1000, equal to
the buffered sample's) is appended and produces a cycle output. -/
theorem C1_no_staleness_check_witness :
    (fetchData 0 (some
        { location := some "10,76", temperature := some 25, humidity := some 50,
          carbon := some 300, timestamp := 1000 })
      { historicalData :=
          [{ temperature := some 25, humidity := some 50, carbon := some 300,
             timestamp := 1000 }],
        lastAlertTimes := { temp := 0, co2 := 0, humidity := 0 },
        activeAlerts := [], unreadAlertCount := 0 }).1.historicalData =
      pushHist
        [{ temperature := some 25, humidity := some 50, carbon := some 300,
           timestamp := 1000 }]
        (formatSample
          { location := some "10,76", temperature := some 25, humidity := some 50,
            carbon := some 300, timestamp := 1000 }) ∧
    (fetchData 0 (some
        { location := some "10,76", temperature := some 25, humidity := some 50,
          carbon := some 300, timestamp := 1000 })
      { historicalData :=
          [{ temperature := some 25, humidity := some 50, carbon := some 300,
             timestamp := 1000 }],
        lastAlertTimes := { temp := 0, co2 := 0, humidity := 0 },
        activeAlerts := [], unreadAlertCount := 0 }).2.isSome = true :=
  C1_no_staleness_check 0
    { location := some "10,76", temperature := some 25, humidity := some 50,
      carbon := some 300, timestamp := 1000 }
    { historicalData :=
        [{ temperature := some 25, humidity := some 50, carbon := some 300,
           timestamp := 1000 }],
      lastAlertTimes := { temp := 0, co2 := 0, humidity := 0 },
      activeAlerts := [], unreadAlertCount := 0 }
    { temperature := some 25, humidity := some 50, carbon := some 300,
      timestamp := 1000 }
    (by decide) (by decide) (by decide)

/-! ### C7 -/

/-- C7 as stated fails on the code: a payload whose `location` is present
but whose temperature reading is non-numeric is NOT rejected — the cycle
mutates the history buffer (it grows from empty to one entry). -/
theorem C7_counterexample :
    (fetchData 0 (some
        { location := some "10,76", temperature := none, humidity := some 50,
          carbon := some 300, timestamp := 1 }) initDash).1.historicalData ≠
      initDash.historicalData := by
  decide

/-- C7 (amended): ingestion validates only the `location` field.  A null
payload, or one whose `location` is absent or empty, is rejected with the
whole state unchanged and nothing surfaced; but a payload with a truthy
`location` is always accepted and produces a cycle output, even when its
readings are non-numeric (their `NaN`-like comparisons simply evaluate
false downstream). -/
theorem C7_location_only_validation (now : ℤ) (st : DashState) :
    fetchData now none st = (st, none) ∧
    (∀ p : Payload, jsTruthy p.location = false →
      fetchData now (some p) st = (st, none)) ∧
    (∀ p : Payload, jsTruthy p.location = true →
      (fetchData now (some p) st).2.isSome = true) := by
  refine ⟨rfl, fun p hloc => ?_, fun p hloc => ?_⟩
  · simp [fetchData, hloc]
  · simp [fetchData, hloc]

/-- Witness for C7 (amended) at concrete rejected and accepted payloads. -/
theorem C7_location_only_validation_witness :
    fetchData 0 none initDash = (initDash, none) ∧
    (jsTruthy (Payload.location
        { location := none, temperature := some 25, humidity := some 50,
          carbon := some 300, timestamp := 1 }) = false ∧
      fetchData 0 (some
        { location := none, temperature := some 25, humidity := some 50,
          carbon := some 300, timestamp := 1 }) initDash = (initDash, none)) ∧
    (jsTruthy (Payload.location
        { location := some "10,76", temperature := none, humidity := some 50,
          carbon := some 300, timestamp := 1 }) = true ∧
      (fetchData 0 (some
        { location := some "10,76", temperature := none, humidity := some 50,
          carbon := some 300, timestamp := 1 }) initDash).2.isSome = true) :=
  ⟨(C7_location_only_validation 0 initDash).1,
    ⟨by decide, (C7_location_only_validation 0 initDash).2.1
      { location := none, temperature := some 25, humidity := some 50,
        carbon := some 300, timestamp := 1 } (by decide)⟩,
    ⟨by decide, (C7_location_only_validation 0 initDash).2.2
      { location := some "10,76", temperature := none, humidity := some 50,
        carbon := some 300, timestamp := 1 } (by decide)⟩⟩

/-! ### C5 -/

/-- C5 as stated fails on the code: after 6 sequential samples with carbon
rising from 300 to 400 (all under thresholds), the classification of the
6th cycle is Normal with the STABLE suggestion, not the upward-trend
suggestion: classification runs before the append, so only 5 samples are
buffered during the 6th cycle and the length > 5 trend guard fails. -/
theorem C5_counterexample :
    (runFetch initDash
      [(0, some
         { location := some "10,76", temperature := some 25,
           humidity := some 50, carbon := some 300, timestamp := 1 }),
       (0, some
         { location := some "10,76", temperature := some 25,
           humidity := some 50, carbon := some 320, timestamp := 2 }),
       (0, some
         { location := some "10,76", temperature := some 25,
           humidity := some 50, carbon := some 340, timestamp := 3 }),
       (0, some
         { location := some "10,76", temperature := some 25,
           humidity := some 50, carbon := some 360, timestamp := 4 }),
       (0, some
         { location := some "10,76", temperature := some 25,
           humidity := some 50, carbon := some 380, timestamp := 5 }),
       (0, some
         { location := some "10,76", temperature := some 25,
           humidity := some 50, carbon := some 400, timestamp := 6 })]).2.drop 5 =
      [some { status := Status.normal, suggestion := Suggestion.stable,
              fires := [] }] ∧
    (runFetch initDash
      [(0, some
         { location := some "10,76", temperature := some 25,
           humidity := some 50, carbon := some 300, timestamp := 1 }),
       (0, some
         { location := some "10,76", temperature := some 25,
           humidity := some 50, carbon := some 320, timestamp := 2 }),
       (0, some
         { location := some "10,76", temperature := some 25,
           humidity := some 50, carbon := some 340, timestamp := 3 }),
       (0, some
         { location := some "10,76", temperature := some 25,
           humidity := some 50, carbon := some 360, timestamp := 4 }),
       (0, some
         { location := some "10,76", temperature := some 25,
           humidity := some 50, carbon := some 380, timestamp := 5 }),
       (0, some
         { location := some "10,76", temperature := some 25,
           humidity := some 50, carbon := some 400, timestamp := 6 })]).2.drop 5 ≠
      [some { status := Status.normal, suggestion := Suggestion.trendUp 100,
              fires := [] }] := by
  constructor
  · decide
  · decide

/-- C5 (amended): with carbon rising from 300 to 400 over sequential
under-threshold samples, the upward-trend suggestion citing a 100 ppm
increase first appears on the 7th cycle (when 6 samples are already
buffered), while the 6th cycle still reports stable conditions. -/
theorem C5_trend_on_seventh_cycle :
    (runFetch initDash
      [(0, some
         { location := some "10,76", temperature := some 25,
           humidity := some 50, carbon := some 300, timestamp := 1 }),
       (0, some
         { location := some "10,76", temperature := some 25,
           humidity := some 50, carbon := some 320, timestamp := 2 }),
       (0, some
         { location := some "10,76", temperature := some 25,
           humidity := some 50, carbon := some 340, timestamp := 3 }),
       (0, some
         { location := some "10,76", temperature := some 25,
           humidity := some 50, carbon := some 360, timestamp := 4 }),
       (0, some
         { location := some "10,76", temperature := some 25,
           humidity := some 50, carbon := some 380, timestamp := 5 }),
       (0, some
         { location := some "10,76", temperature := some 25,
           humidity := some 50, carbon := some 400, timestamp := 6 }),
       (0, some
         { location := some "10,76", temperature := some 25,
           humidity := some 50, carbon := some 400, timestamp := 7 })]).2.drop 5 =
      [some { status := Status.normal, suggestion := Suggestion.stable,
              fires := [] },
       some { status := Status.normal, suggestion := Suggestion.trendUp 100,
              fires := [] }] := by
  decide

/-! ### C9 -/

/-- A trend suggestion can only arise from the Normal branch with more
than 5 samples in the supplied history, and its delta is the new carbon
reading minus the carbon of the history's first (oldest) element. -/
theorem updateStatusPanel_trendUp (data : Sample) (h : List Sample) (d : ℤ)
    (ht : (updateStatusPanel data h).2 = Suggestion.trendUp d) :
    h.length > 5 ∧ ∃ old, h.head? = some old ∧
      jsSub data.carbon old.carbon = some d ∧ d > 50 := by
  unfold updateStatusPanel at ht
  split_ifs at ht with h1 h2 h3 h5
  all_goals dsimp only at ht
  refine ⟨h5, ?_⟩
  cases hh : h with
  | nil => rw [hh] at h5; simp at h5
  | cons old rest =>
    rw [hh] at ht
    simp only at ht
    cases hsub : jsSub data.carbon old.carbon with
    | none => rw [hsub] at ht; simp at ht
    | some trend =>
      rw [hsub] at ht
      simp only at ht
      split_ifs at ht with htr htr2
      simp only [Suggestion.trendUp.injEq] at ht
      subst ht
      exact ⟨old, by simp, hsub, htr⟩

/-- C9: classification runs against the history as it was before the new
sample is appended: whenever an ingestion cycle publishes a trend
suggestion, more than 5 samples were buffered before (not counting) the
current sample, and the cited delta is the new carbon reading minus the
carbon of the oldest previously buffered sample. -/
theorem C9_preappend_classification (now : ℤ) (p : Payload) (st : DashState)
    (out : CycleOut) (d : ℤ)
    (hout : (fetchData now (some p) st).2 = some out)
    (htrend : out.suggestion = Suggestion.trendUp d) :
    st.historicalData.length > 5 ∧
    ∃ old, st.historicalData.head? = some old ∧
      jsSub (formatSample p).carbon old.carbon = some d ∧ d > 50 := by
  by_cases hloc : jsTruthy p.location = true
  · simp only [fetchData, hloc, if_true] at hout
    have hsugg : (updateStatusPanel (formatSample p) st.historicalData).2 =
        Suggestion.trendUp d := by
      rw [← htrend, ← Option.some_inj.mp hout]
    exact updateStatusPanel_trendUp (formatSample p) st.historicalData d hsugg
  · simp only [fetchData, hloc, if_false] at hout
    exact absurd hout (by simp)

/-- Witness for C9: with 6 buffered samples of carbon 300..380 and a new
payload of carbon 400, the published suggestion is an upward trend of 100,
and the theorem recovers that 6 samples were buffered beforehand. -/
theorem C9_preappend_classification_witness :
    ({ historicalData :=
        [{ temperature := some 25, humidity := some 50, carbon := some 300,
           timestamp := 1 },
         { temperature := some 25, humidity := some 50, carbon := some 316,
           timestamp := 2 },
         { temperature := some 25, humidity := some 50, carbon := some 332,
           timestamp := 3 },
         { temperature := some 25, humidity := some 50, carbon := some 348,
           timestamp := 4 },
         { temperature := some 25, humidity := some 50, carbon := some 364,
           timestamp := 5 },
         { temperature := some 25, humidity := some 50, carbon := some 380,
           timestamp := 6 }],
       lastAlertTimes := { temp := 0, co2 := 0, humidity := 0 },
       activeAlerts := [], unreadAlertCount := 0 } : DashState).historicalData.length > 5 ∧
    ∃ old,
      ({ historicalData :=
          [{ temperature := some 25, humidity := some 50, carbon := some 300,
             timestamp := 1 },
           { temperature := some 25, humidity := some 50, carbon := some 316,
             timestamp := 2 },
           { temperature := some 25, humidity := some 50, carbon := some 332,
             timestamp := 3 },
           { temperature := some 25, humidity := some 50, carbon := some 348,
             timestamp := 4 },
           { temperature := some 25, humidity := some 50, carbon := some 364,
             timestamp := 5 },
           { temperature := some 25, humidity := some 50, carbon := some 380,
             timestamp := 6 }],
         lastAlertTimes := { temp := 0, co2 := 0, humidity := 0 },
         activeAlerts := [], unreadAlertCount := 0 } : DashState).historicalData.head? =
        some old ∧
      jsSub (formatSample
        { location := some "10,76", temperature := some 25, humidity := some 50,
          carbon := some 400, timestamp := 7 }).carbon old.carbon = some 100 ∧
      (100 : ℤ) > 50 :=
  C9_preappend_classification 0
    { location := some "10,76", temperature := some 25, humidity := some 50,
      carbon := some 400, timestamp := 7 }
    { historicalData :=
        [{ temperature := some 25, humidity := some 50, carbon := some 300,
           timestamp := 1 },
         { temperature := some 25, humidity := some 50, carbon := some 316,
           timestamp := 2 },
         { temperature := some 25, humidity := some 50, carbon := some 332,
           timestamp := 3 },
         { temperature := some 25, humidity := some 50, carbon := some 348,
           timestamp := 4 },
         { temperature := some 25, humidity := some 50, carbon := some 364,
           timestamp := 5 },
         { temperature := some 25, humidity := some 50, carbon := some 380,
           timestamp := 6 }],
      lastAlertTimes := { temp := 0, co2 := 0, humidity := 0 },
      activeAlerts := [], unreadAlertCount := 0 }
    { status := Status.normal, suggestion := Suggestion.trendUp 100, fires := [] }
    100 (by decide) (by decide)

/-! ### C10 -/

/-- `tempCheck` preserves `unreadAlertCount ≤ activeAlerts.length` (a fire
increments both by one). -/
theorem tempCheck_invar (now : ℤ) (d : Sample) (st : DashState)
    (h : st.unreadAlertCount ≤ st.activeAlerts.length) :
    ((tempCheck now d st).1).unreadAlertCount ≤
      ((tempCheck now d st).1).activeAlerts.length := by
  unfold tempCheck sendAlert
  split_ifs <;> simp <;> omega

/-- `co2Check` preserves `unreadAlertCount ≤ activeAlerts.length`. -/
theorem co2Check_invar (now : ℤ) (d : Sample) (st : DashState)
    (h : st.unreadAlertCount ≤ st.activeAlerts.length) :
    ((co2Check now d st).1).unreadAlertCount ≤
      ((co2Check now d st).1).activeAlerts.length := by
  unfold co2Check sendAlert
  split_ifs <;> simp <;> omega

/-- `humidityCheck` preserves `unreadAlertCount ≤ activeAlerts.length`. -/
theorem humidityCheck_invar (now : ℤ) (d : Sample) (st : DashState)
    (h : st.unreadAlertCount ≤ st.activeAlerts.length) :
    ((humidityCheck now d st).1).unreadAlertCount ≤
      ((humidityCheck now d st).1).activeAlerts.length := by
  unfold humidityCheck sendAlert
  split_ifs <;> simp <;> omega

/-- One full alert evaluation preserves the counter-vs-log invariant. -/
theorem checkThresholds_invar (now : ℤ) (d : Sample) (st : DashState)
    (h : st.unreadAlertCount ≤ st.activeAlerts.length) :
    ((checkThresholds now d st).1).unreadAlertCount ≤
      ((checkThresholds now d st).1).activeAlerts.length := by
  unfold checkThresholds
  exact humidityCheck_invar now d _ (co2Check_invar now d _ (tempCheck_invar now d _ h))

/-- Every event preserves the counter-vs-log invariant. -/
theorem applyEvent_invar (st : DashState) (ev : UiEvent)
    (h : st.unreadAlertCount ≤ st.activeAlerts.length) :
    (applyEvent st ev).unreadAlertCount ≤
      (applyEvent st ev).activeAlerts.length := by
  cases ev with
  | tick now liveData =>
    cases liveData with
    | none => exact h
    | some p =>
      by_cases hloc : jsTruthy p.location = true
      · simp only [applyEvent, fetchData, hloc, if_true]
        exact checkThresholds_invar now (formatSample p) st h
      · simp only [applyEvent, fetchData, hloc, if_false]
        exact h
  | bellClick => simp [applyEvent]
  | clearClick => simp [applyEvent]

/-- The invariant holds at every state reachable by a run. -/
theorem foldl_applyEvent_invar (evs : List UiEvent) :
    ∀ st : DashState, st.unreadAlertCount ≤ st.activeAlerts.length →
      (evs.foldl applyEvent st).unreadAlertCount ≤
        (evs.foldl applyEvent st).activeAlerts.length := by
  induction evs with
  | nil => exact fun st h => h
  | cons e evs ih =>
    intro st h
    exact ih (applyEvent st e) (applyEvent_invar st e h)

/-- C10: in every state reachable from page load, the unread counter never
exceeds the alert log's length (it is a natural number, so 0 ≤ it holds by
type); firing prepends exactly one record and increments the counter by
one while leaving the history buffer alone; opening the alert modal zeroes
the counter and leaves the log unchanged; clearing empties the log and
zeroes the counter. -/
theorem C10_alert_log_invariant :
    (∀ evs : List UiEvent,
        (runEvents evs).unreadAlertCount ≤ (runEvents evs).activeAlerts.length) ∧
    (∀ (m : Metric) (v : JVal) (sev : Severity) (now : ℤ) (st : DashState),
        (sendAlert m v sev now st).activeAlerts =
          { metric := m, value := v, severity := sev, firedAt := now } ::
            st.activeAlerts ∧
        (sendAlert m v sev now st).unreadAlertCount = st.unreadAlertCount + 1) ∧
    (∀ st : DashState,
        (applyEvent st UiEvent.bellClick).unreadAlertCount = 0 ∧
        (applyEvent st UiEvent.bellClick).activeAlerts = st.activeAlerts) ∧
    (∀ st : DashState,
        (applyEvent st UiEvent.clearClick).activeAlerts = [] ∧
        (applyEvent st UiEvent.clearClick).unreadAlertCount = 0) :=
  ⟨fun evs => foldl_applyEvent_invar evs initDash (Nat.le_refl 0),
    fun _ _ _ _ _ => ⟨rfl, rfl⟩,
    fun _ => ⟨rfl, rfl⟩,
    fun _ => ⟨rfl, rfl⟩⟩

/-! ### C8 -/

/-- C8 as stated fails on the code in both directions of the interval:
a sample whose timestamp is exactly `now − range` lies in the claimed
closed window but is dropped by the code's strict `>` filter, and a sample
with a future timestamp (beyond `now`) is outside the claimed window but
kept by the code, which applies no upper bound. -/
theorem C8_counterexample :
    renderAnalyticsSeries 86400000 TimeFilter.h24 DataKey.carbon
      [{ temperature := some 25, humidity := some 50, carbon := some 300,
         timestamp := 0 }] ≠
      windowSpecClaim 86400000 TimeFilter.h24 DataKey.carbon
        [{ temperature := some 25, humidity := some 50, carbon := some 300,
           timestamp := 0 }] ∧
    renderAnalyticsSeries 1000 TimeFilter.h24 DataKey.carbon
      [{ temperature := some 25, humidity := some 50, carbon := some 300,
         timestamp := 2000 }] ≠
      windowSpecClaim 1000 TimeFilter.h24 DataKey.carbon
        [{ temperature := some 25, humidity := some 50, carbon := some 300,
           timestamp := 2000 }] := by
  constructor
  · decide
  · decide

/-- C8 (amended): for a 24h or 7d range the analytics series consists of
exactly the buffered samples whose timestamp is strictly later than
`now − range` (with no upper bound), in buffer order, projected to
`(timestamp, value)` pairs for the chosen metric; the filtered list is a
sublist of the buffer (the buffer itself is not mutated — the windower is
a pure function of it). -/
theorem C8_window_strict_filter (now : ℤ) (tf : TimeFilter) (key : DataKey)
    (historicalData : List Sample) :
    renderAnalyticsSeries now tf key historicalData =
      windowSpecAmended now tf key historicalData ∧
    List.Sublist (analyticsFilteredData now tf historicalData) historicalData := by
  refine ⟨?_, ?_⟩
  · cases tf <;> rfl
  · cases tf
    · exact List.Sublist.refl historicalData
    · exact List.filter_sublist historicalData
    · exact List.filter_sublist historicalData

/-! ### C2 -/

/-- `fireTimesFor` distributes over appended event lists. -/
theorem fireTimesFor_append (m : Metric) (a b : List (ℤ × Metric)) :
    fireTimesFor m (a ++ b) = fireTimesFor m a ++ fireTimesFor m b := by
  simp [fireTimesFor]

/-- Projection of one `checkThresholds` evaluation onto a single metric:
the metric's cooldown entry and fired events are exactly those of
`alertStep`, independently of the other two metrics. -/
theorem checkThresholds_metric (now : ℤ) (d : Sample) (st : DashState)
    (m : Metric) :
    ((checkThresholds now d st).1).lastAlertTimes.get m =
      (alertStep (st.lastAlertTimes.get m) now (breachOf m d)).1 ∧
    fireTimesFor m (checkThresholds now d st).2 =
      (if (alertStep (st.lastAlertTimes.get m) now (breachOf m d)).2 then
        [now] else []) := by
  cases m <;>
    · simp only [checkThresholds, tempCheck, co2Check, humidityCheck,
        sendAlert, breachOf, LastAlertTimes.get, alertStep]
      split_ifs <;> simp_all [fireTimesFor]

/-- Bridge: the firing times of a metric over a whole run of alert
evaluations are those of the single-metric `alertRun` automaton started at
the state's cooldown entry. -/
theorem runChecks_alertRun (m : Metric) :
    ∀ (ticks : List (ℤ × Sample)) (st : DashState),
      fireTimesFor m (runChecks st ticks).2 =
        alertRun (st.lastAlertTimes.get m)
          (ticks.map (fun t => (t.1, breachOf m t.2))) := by
  intro ticks
  induction ticks with
  | nil => intro st; rfl
  | cons t ts ih =>
    intro st
    obtain ⟨now, s⟩ := t
    simp only [runChecks, List.map_cons, alertRun]
    rw [fireTimesFor_append, (checkThresholds_metric now s st m).2, ih,
      (checkThresholds_metric now s st m).1]

/-- Every firing of `alertRun` is strictly more than a cooldown after the
automaton's starting entry. -/
theorem alertRun_gap :
    ∀ (ts : List (ℤ × Bool)) (last t : ℤ),
      t ∈ alertRun last ts → t - last > ALERT_COOLDOWN := by
  intro ts
  induction ts with
  | nil => intro last t ht; simp [alertRun] at ht
  | cons x ts ih =>
    intro last t ht
    obtain ⟨now, b⟩ := x
    have hC : (0 : ℤ) < ALERT_COOLDOWN := by norm_num [ALERT_COOLDOWN]
    by_cases hc : (b && decide (now - last > ALERT_COOLDOWN)) = true
    · simp only [alertRun, alertStep, hc, if_true, List.cons_append,
        List.nil_append, List.mem_cons] at ht
      have hgap : now - last > ALERT_COOLDOWN := by
        have := (Bool.and_eq_true _ _).mp hc
        exact of_decide_eq_true this.2
      cases ht with
      | inl h => rw [h]; exact hgap
      | inr h =>
        have := ih now t h
        linarith
    · simp only [alertRun, alertStep, hc, if_false, List.nil_append] at ht
      exact ih last t ht

/-- No two firings of `alertRun` lie within a cooldown of each other. -/
theorem alertRun_pairwise :
    ∀ (ts : List (ℤ × Bool)) (last : ℤ),
      List.Pairwise (fun a b => b - a > ALERT_COOLDOWN) (alertRun last ts) := by
  intro ts
  induction ts with
  | nil => intro last; simp [alertRun]
  | cons x ts ih =>
    intro last
    obtain ⟨now, b⟩ := x
    by_cases hc : (b && decide (now - last > ALERT_COOLDOWN)) = true
    · simp only [alertRun, alertStep, hc, if_true, List.cons_append,
        List.nil_append]
      exact List.Pairwise.cons (fun t ht => alertRun_gap ts now t ht) (ih now)
    · simp only [alertRun, alertStep, hc, if_false, List.nil_append]
      exact ih last

/-- Under a breach at every tick, `alertRun` fires exactly the greedy
once-per-window pattern. -/
theorem alertRun_sustained :
    ∀ (ts : List (ℤ × Bool)), (∀ x ∈ ts, x.2 = true) →
      ∀ last : ℤ, alertRun last ts = greedyFires last (ts.map (fun x => x.1)) := by
  intro ts
  induction ts with
  | nil => intro _ last; rfl
  | cons x ts ih =>
    intro hb last
    obtain ⟨now, b⟩ := x
    have hbt : b = true := hb (now, b) (List.mem_cons_self _ _)
    subst hbt
    have hrest : ∀ x ∈ ts, x.2 = true := fun x hx => hb x (List.mem_cons_of_mem _ hx)
    by_cases hc : now - last > ALERT_COOLDOWN
    · simp only [alertRun, alertStep, List.map_cons, greedyFires,
        Bool.true_and, decide_eq_true_eq, hc, if_true, List.cons_append,
        List.nil_append]
      rw [ih hrest now]
    · simp only [alertRun, alertStep, List.map_cons, greedyFires,
        Bool.true_and, decide_eq_true_eq, hc, if_false, List.nil_append]
      rw [ih hrest last]
      simp

/-- C2: over any sequence of alert evaluations from any engine state, the
firing times of each metric are pairwise separated by strictly more than
`ALERT_COOLDOWN = 300000` ms (so no two alerts for a metric fire within
the cooldown of each other); and when the metric breaches its threshold on
every tick, the firings are exactly the greedy once-per-window pattern:
one alert at the first tick strictly beyond each 300000 ms window measured
from the previous firing time. -/
theorem C2_alert_cooldown (st : DashState) (ticks : List (ℤ × Sample))
    (m : Metric) :
    List.Pairwise (fun a b => b - a > ALERT_COOLDOWN)
      (fireTimesFor m (runChecks st ticks).2) ∧
    ((∀ t ∈ ticks, breachOf m t.2 = true) →
      fireTimesFor m (runChecks st ticks).2 =
        greedyFires (st.lastAlertTimes.get m) (ticks.map (fun t => t.1))) := by
  rw [runChecks_alertRun m ticks st]
  constructor
  · exact alertRun_pairwise _ _
  · intro hb
    rw [alertRun_sustained _ ?_ _]
    · rw [List.map_map]
      rfl
    · intro x hx
      obtain ⟨t, ht, rfl⟩ := List.mem_map.mp hx
      exact hb t ht

/-- Witness for C2 at three concrete sustained-breach ticks: the first
fires at 400000, the tick 5 ms later is suppressed, and the tick at 700005
(300005 ms after the first firing) fires again. -/
theorem C2_alert_cooldown_witness :
    List.Pairwise (fun a b => b - a > ALERT_COOLDOWN)
      (fireTimesFor Metric.temp
        (runChecks initDash
          [(400000,
            { temperature := some 50, humidity := some 50,
              carbon := some 300, timestamp := 1 }),
           (400005,
            { temperature := some 50, humidity := some 50,
              carbon := some 300, timestamp := 2 }),
           (700005,
            { temperature := some 50, humidity := some 50,
              carbon := some 300, timestamp := 3 })]).2) ∧
    fireTimesFor Metric.temp
        (runChecks initDash
          [(400000,
            { temperature := some 50, humidity := some 50,
              carbon := some 300, timestamp := 1 }),
           (400005,
            { temperature := some 50, humidity := some 50,
              carbon := some 300, timestamp := 2 }),
           (700005,
            { temperature := some 50, humidity := some 50,
              carbon := some 300, timestamp := 3 })]).2 =
      greedyFires (initDash.lastAlertTimes.get Metric.temp)
        [400000, 400005, 700005] :=
  ⟨(C2_alert_cooldown initDash
      [(400000,
            { temperature := some 50, humidity := some 50,
              carbon := some 300, timestamp := 1 }),
           (400005,
            { temperature := some 50, humidity := some 50,
              carbon := some 300, timestamp := 2 }),
           (700005,
            { temperature := some 50, humidity := some 50,
              carbon := some 300, timestamp := 3 })] Metric.temp).1,
    (C2_alert_cooldown initDash
      [(400000,
            { temperature := some 50, humidity := some 50,
              carbon := some 300, timestamp := 1 }),
           (400005,
            { temperature := some 50, humidity := some 50,
              carbon := some 300, timestamp := 2 }),
           (700005,
            { temperature := some 50, humidity := some 50,
              carbon := some 300, timestamp := 3 })] Metric.temp).2 (by decide)⟩

/-! ### C6 -/

/-- All three channels of a color lie in the printable byte range. -/
def channelsInRange (c : RGB) : Prop :=
  0 ≤ c.r ∧ c.r ≤ 255 ∧ 0 ≤ c.g ∧ c.g ≤ 255 ∧ 0 ≤ c.b ∧ c.b ≤ 255

/-- C6 as stated fails on the code: `interpolateColor` never clamps its
factor, so `getTemperatureColor (-25)` (a value below the lowest
breakpoint, with band factor −1) produces a blue channel of 398, outside
[0, 255] — the resulting hex string is malformed. -/
theorem C6_counterexample : ¬ channelsInRange (getTemperatureColor (-25)) := by
  have hb : (getTemperatureColor (-25)).b = 398 := by
    norm_num [getTemperatureColor, interpolateColor, jsRound, tcBlue, tcGreen,
      Int.floor_eq_iff]
  intro h
  unfold channelsInRange at h
  rw [hb] at h
  omega

/-- Half-up rounding keeps a value of [0, 255] in [0, 255]. -/
theorem jsRound_bounds (x : ℚ) (h0 : 0 ≤ x) (h1 : x ≤ 255) :
    0 ≤ jsRound x ∧ jsRound x ≤ 255 := by
  unfold jsRound
  constructor
  · exact Int.le_floor.mpr (by push_cast; linarith)
  · have hlt : ⌊x + 1 / 2⌋ < 256 := Int.floor_lt.mpr (by push_cast; linarith)
    omega

/-- One interpolated channel stays in [0, 255] when both endpoints do and
the factor lies in [0, 1]. -/
theorem interpChannel_bounds (a b : ℤ) (f : ℚ)
    (ha0 : 0 ≤ a) (ha1 : a ≤ 255) (hb0 : 0 ≤ b) (hb1 : b ≤ 255)
    (hf0 : 0 ≤ f) (hf1 : f ≤ 1) :
    0 ≤ jsRound ((a : ℚ) + f * ((b : ℚ) - (a : ℚ))) ∧
      jsRound ((a : ℚ) + f * ((b : ℚ) - (a : ℚ))) ≤ 255 := by
  have ha0' : (0 : ℚ) ≤ (a : ℚ) := by exact_mod_cast ha0
  have ha1' : (a : ℚ) ≤ 255 := by exact_mod_cast ha1
  have hb0' : (0 : ℚ) ≤ (b : ℚ) := by exact_mod_cast hb0
  have hb1' : (b : ℚ) ≤ 255 := by exact_mod_cast hb1
  have he : (a : ℚ) + f * ((b : ℚ) - (a : ℚ)) = (1 - f) * a + f * b := by ring
  apply jsRound_bounds
  · rw [he]
    have := mul_nonneg (by linarith : (0 : ℚ) ≤ 1 - f) ha0'
    have := mul_nonneg hf0 hb0'
    linarith
  · rw [he]
    have h1 : (1 - f) * (a : ℚ) ≤ (1 - f) * 255 :=
      mul_le_mul_of_nonneg_left ha1' (by linarith)
    have h2 : f * (b : ℚ) ≤ f * 255 := mul_le_mul_of_nonneg_left hb1' hf0
    nlinarith

/-- Interpolating between two in-range colors with a factor in [0, 1]
yields an in-range color. -/
theorem interpolateColor_bounds (c1 c2 : RGB) (f : ℚ)
    (h1 : channelsInRange c1) (h2 : channelsInRange c2)
    (hf0 : 0 ≤ f) (hf1 : f ≤ 1) :
    channelsInRange (interpolateColor c1 c2 f) := by
  obtain ⟨a1, a2, a3, a4, a5, a6⟩ := h1
  obtain ⟨b1, b2, b3, b4, b5, b6⟩ := h2
  have hr := interpChannel_bounds c1.r c2.r f a1 a2 b1 b2 hf0 hf1
  have hg := interpChannel_bounds c1.g c2.g f a3 a4 b3 b4 hf0 hf1
  have hb := interpChannel_bounds c1.b c2.b f a5 a6 b5 b6 hf0 hf1
  exact ⟨hr.1, hr.2, hg.1, hg.2, hb.1, hb.2⟩

/-- C6 (amended): `getTemperatureColor` is total, but the interpolation
factor is not clamped; its channels are guaranteed to lie in [0, 255]
exactly when the selected band's factor lies in [0, 1], which holds for
every input value in [0, 100] — for values below 0 or above 100 a channel
can leave [0, 255] (see the counterexample at −25). -/
theorem C6_color_bounds_on_gauge_range (v : ℚ) (h0 : 0 ≤ v) (h1 : v ≤ 100) :
    channelsInRange (getTemperatureColor v) := by
  unfold getTemperatureColor
  split_ifs with b25 b40 b50 b70
  · exact interpolateColor_bounds tcBlue tcGreen (v / 25)
      (by norm_num [channelsInRange, tcBlue])
      (by norm_num [channelsInRange, tcGreen])
      (by positivity)
      (by rw [div_le_one (by norm_num)]; linarith)
  · exact interpolateColor_bounds tcGreen tcYellow ((v - 25) / 15)
      (by norm_num [channelsInRange, tcGreen])
      (by norm_num [channelsInRange, tcYellow])
      (by apply div_nonneg _ (by norm_num); linarith)
      (by rw [div_le_one (by norm_num)]; linarith)
  · exact interpolateColor_bounds tcYellow tcLightRed ((v - 40) / 10)
      (by norm_num [channelsInRange, tcYellow])
      (by norm_num [channelsInRange, tcLightRed])
      (by apply div_nonneg _ (by norm_num); linarith)
      (by rw [div_le_one (by norm_num)]; linarith)
  · exact interpolateColor_bounds tcLightRed tcMidRed ((v - 50) / 20)
      (by norm_num [channelsInRange, tcLightRed])
      (by norm_num [channelsInRange, tcMidRed])
      (by apply div_nonneg _ (by norm_num); linarith)
      (by rw [div_le_one (by norm_num)]; linarith)
  · exact interpolateColor_bounds tcMidRed tcDarkRed ((v - 70) / 30)
      (by norm_num [channelsInRange, tcMidRed])
      (by norm_num [channelsInRange, tcDarkRed])
      (by apply div_nonneg _ (by norm_num); linarith)
      (by rw [div_le_one (by norm_num)]; linarith)

/-- Witness for C6 (amended) at the concrete gauge value 30. -/
theorem C6_color_bounds_on_gauge_range_witness :
    (0 : ℚ) ≤ 30 ∧ (30 : ℚ) ≤ 100 ∧ channelsInRange (getTemperatureColor 30) :=
  ⟨by decide, by decide,
    C6_color_bounds_on_gauge_range 30 (by decide) (by decide)⟩
